import Mathlib

/-!
Shallow embedding of the update-candidate generation core of the repository
(the async function `generateUpdate` in the lookup subsystem), together with
proofs of the behavioural properties stated for it.

Modelling conventions, matching the TypeScript source line by line:

* A JavaScript value of type `string | undefined` (and the nullish results of
  the versioning adapter, `string | null`) is modelled as `Option String`,
  with `none` for the nullish value.  The two nullish values `null` and
  `undefined` are collapsed into `none`; in `generateUpdate` the two are never
  compared against each other on any path, so the collapse is observation
  preserving.
* JavaScript truthiness of such a value: `none` and `some ""` are falsy.
* A field of the mutable result object that may never be assigned is modelled
  as an `Option` that is `none` exactly while the field is still absent.  The
  field `newValue` is initialised in the source to a `null` sentinel that is
  asserted to be overwritten before return; to make "was overwritten"
  expressible, `newValue` is modelled as `Option (Option String)`: the outer
  `none` is the initial sentinel, and an assignment of the JavaScript value
  `v` stores `some v`.
* A TypeScript method that can throw (`getNewValue`) returns `Except String`
  where `Except.error` carries the thrown message.
* An optional capability of the versioning adapter (`isBreaking`) is an
  `Option` of a function; the source tests its presence before calling it.
* Functions imported from modules outside this file (`getUpdateType`,
  `getMergeConfidenceLevel`, `getElapsedDays`) are taken as parameters,
  bundled in `ExternalFns`; all theorems quantify over them.
* Each sequential mutation step of the source (`update.f = ...`, or
  `if (c) update.f = ...`) is embedded as a named function from the update
  object to the update object, and `generateUpdate` chains the steps in
  source order.  A conditional assignment `if (c) u.f = v` becomes
  `if c then { u with f := v } else u`.
-/

/-- JavaScript truthiness of a `string | undefined` value:
`undefined` and the empty string are falsy. -/
def truthy : Option String → Bool
  | none => false
  | some s => s != ""

/-- The `RangeStrategy` enum of the repository:
`replace | widen | pin | bump | update-lockfile | in-range-only | auto`. -/
inductive RangeStrategy where
  | replace
  | widen
  | pin
  | bump
  | updateLockfile
  | inRangeOnly
  | auto
  deriving DecidableEq, Repr

/-- The `UpdateType` enum of the repository. -/
inductive UpdateType where
  | major
  | minor
  | patch
  | pin
  | digest
  | rollback
  | replacement
  | bump
  deriving DecidableEq, Repr

/-- The argument record of `versioningApi.getNewValue` (`NewValueConfig` in
the source).  At the call site `currentValue` is a truthy string. -/
structure NewValueConfig where
  currentValue : String
  rangeStrategy : RangeStrategy
  currentVersion : Option String
  newVersion : String
  deriving DecidableEq

/-- The capability object of a versioning scheme, restricted to the
capabilities `generateUpdate` uses.  `getNewValue` may throw (modelled with
`Except`) and may return `null` (the inner `Option`).  `getMajor`, `getMinor`
and `getPatch` may return `null`.  `isBreaking` is an optional capability. -/
structure VersioningApi where
  getNewValue : NewValueConfig → Except String (Option String)
  getMajor : String → Option Int
  getMinor : String → Option Int
  getPatch : String → Option Int
  isVersion : Option String → Bool
  «matches» : String → Option String → Bool
  isBreaking : Option (Option String → String → Bool)

/-- One release, as consumed by `generateUpdate` (`Release` in the source);
each `Option` field is `none` when absent (`undefined`). -/
structure Release where
  version : String
  releaseTimestamp : Option String := none
  newDigest : Option String := none
  checksumUrl : Option String := none
  downloadUrl : Option String := none
  registryUrl : Option String := none

/-- One package rule; only the `matchConfidence` list is consulted here. -/
structure PackageRule where
  matchConfidence : Option (List String) := none

/-- The slice of `LookupUpdateConfig` that `generateUpdate` reads. -/
structure LookupUpdateConfig where
  datasource : String
  packageName : String
  packageRules : Option (List PackageRule) := none

/-- The result object (`LookupUpdate` in the source).  `newValue` is
`Option (Option String)`: outer `none` is the initial `null` sentinel, an
assignment of the JavaScript value `v` stores `some v`.  Every other
optional field is `none` exactly while it has not been assigned. -/
structure LookupUpdate where
  bucket : String
  newVersion : String
  newValue : Option (Option String)
  checksumUrl : Option String := none
  downloadUrl : Option String := none
  newDigest : Option String := none
  releaseTimestamp : Option String := none
  newVersionAgeInDays : Option Int := none
  registryUrl : Option String := none
  newMajor : Option Int := none
  newMinor : Option Int := none
  newPatch : Option Int := none
  updateType : Option UpdateType := none
  isBreaking : Option Bool := none
  mergeConfidenceLevel : Option String := none
  isRange : Option Bool := none
  isLockfileUpdate : Option Bool := none
  isBump : Option Bool := none
  deriving DecidableEq

/-- The functions `generateUpdate` imports from other modules of the
repository: `getUpdateType` (update-type classifier), the awaited
`getMergeConfidenceLevel`, and `getElapsedDays` for release timestamps.
They are inputs of the model; all theorems hold for every choice. -/
structure ExternalFns where
  getUpdateType : LookupUpdateConfig → VersioningApi → Option String → String → UpdateType
  getMergeConfidenceLevel : String → String → Option String → String → Option UpdateType → Option String
  getElapsedDays : String → Int

/-- The test `packageRules?.some((pr) => is.nonEmptyArray(pr.matchConfidence))`
guarding the merge-confidence enrichment (source lines 326-334). -/
def hasConfidenceRule (config : LookupUpdateConfig) : Bool :=
  match config.packageRules with
  | some prs =>
    prs.any fun pr =>
      match pr.matchConfidence with
      | some l => !l.isEmpty
      | none => false
  | none => false

/-- The `newValue` computation of `generateUpdate` (source lines 286-303):
if `currentValue` is truthy, call `versioningApi.getNewValue` and fall back
to `currentValue` if it throws; otherwise take `currentValue` unchanged
(both falsy shapes of `currentValue` land in the `update.newValue =
currentValue` branch of the source). -/
def computeNewValue (versioningApi : VersioningApi) (currentValue : Option String)
    (rangeStrategy : RangeStrategy) (currentVersion : Option String)
    (newVersion : String) : Option String :=
  match currentValue with
  | some cv =>
    if cv != "" then
      match versioningApi.getNewValue
          { currentValue := cv, rangeStrategy := rangeStrategy,
            currentVersion := currentVersion, newVersion := newVersion } with
      | Except.ok v => v
      | Except.error _ => some cv
    else
      some cv
  | none => none

/-- Source lines 259-262: `if (release.checksumUrl !== undefined)
update.checksumUrl = release.checksumUrl`. -/
def copyChecksumUrl (release : Release) (u : LookupUpdate) : LookupUpdate :=
  if release.checksumUrl.isSome then { u with checksumUrl := release.checksumUrl } else u

/-- Source lines 263-266: conditional copy of `downloadUrl`. -/
def copyDownloadUrl (release : Release) (u : LookupUpdate) : LookupUpdate :=
  if release.downloadUrl.isSome then { u with downloadUrl := release.downloadUrl } else u

/-- Source lines 267-270: conditional copy of `newDigest`. -/
def copyNewDigest (release : Release) (u : LookupUpdate) : LookupUpdate :=
  if release.newDigest.isSome then { u with newDigest := release.newDigest } else u

/-- Source lines 271-275: if `release.releaseTimestamp` is truthy, copy it
and derive `newVersionAgeInDays` via `getElapsedDays`. -/
def copyReleaseTimestamp (fns : ExternalFns) (release : Release) (u : LookupUpdate) : LookupUpdate :=
  match release.releaseTimestamp with
  | some ts =>
    if ts != "" then
      { u with releaseTimestamp := some ts,
               newVersionAgeInDays := some (fns.getElapsedDays ts) }
    else u
  | none => u

/-- Source lines 276-284: conditional copy of `registryUrl`. -/
def copyRegistryUrl (release : Release) (u : LookupUpdate) : LookupUpdate :=
  if release.registryUrl.isSome then { u with registryUrl := release.registryUrl } else u

/-- Source lines 286-303: the single assignment of the computed `newValue`
(`nv` is the value produced by `computeNewValue`). -/
def setNewValueField (nv : Option String) (u : LookupUpdate) : LookupUpdate :=
  { u with newValue := some nv }

/-- Source lines 304-306: `newMajor`, `newMinor`, `newPatch` from the
versioning adapter. -/
def setVersionParts (versioningApi : VersioningApi) (newVersion : String)
    (u : LookupUpdate) : LookupUpdate :=
  { u with newMajor := versioningApi.getMajor newVersion,
           newMinor := versioningApi.getMinor newVersion,
           newPatch := versioningApi.getPatch newVersion }

/-- Source lines 313-315: `update.updateType = update.updateType ??
getUpdateType(config, versioningApi, currentVersion, newVersion)`. -/
def setUpdateTypeField (fns : ExternalFns) (config : LookupUpdateConfig)
    (versioningApi : VersioningApi) (currentVersion : Option String)
    (newVersion : String) (u : LookupUpdate) : LookupUpdate :=
  { u with updateType := some (u.updateType.getD (fns.getUpdateType config versioningApi currentVersion newVersion)) }

/-- Source lines 316-324: breaking awareness when the adapter has the
`isBreaking` capability, otherwise the major-only fallback
`update.updateType === "major"`. -/
def setIsBreakingField (versioningApi : VersioningApi) (currentVersion : Option String)
    (newVersion : String) (u : LookupUpdate) : LookupUpdate :=
  match versioningApi.isBreaking with
  | some f => { u with isBreaking := some (f currentVersion newVersion) }
  | none => { u with isBreaking := some (u.updateType == some UpdateType.major) }

/-- Source lines 325-334: optional merge-confidence enrichment, guarded by
`hasConfidenceRule`. -/
def setMergeConfidenceField (fns : ExternalFns) (config : LookupUpdateConfig)
    (currentVersion : Option String) (newVersion : String)
    (u : LookupUpdate) : LookupUpdate :=
  if hasConfidenceRule config then
    { u with mergeConfidenceLevel := fns.getMergeConfidenceLevel config.datasource config.packageName currentVersion newVersion u.updateType }
  else u

/-- Source lines 335-337: `if (!versioningApi.isVersion(update.newValue))
update.isRange = true` (`nv` is the value held by `update.newValue`). -/
def setIsRangeField (versioningApi : VersioningApi) (nv : Option String)
    (u : LookupUpdate) : LookupUpdate :=
  if !(versioningApi.isVersion nv) then { u with isRange := some true } else u

/-- Source lines 338-340: `if (rangeStrategy === "update-lockfile" &&
currentValue === update.newValue) update.isLockfileUpdate = true`. -/
def setIsLockfileUpdateField (rangeStrategy : RangeStrategy)
    (currentValue : Option String) (nv : Option String)
    (u : LookupUpdate) : LookupUpdate :=
  if rangeStrategy == RangeStrategy.updateLockfile && currentValue == nv then
    { u with isLockfileUpdate := some true }
  else u

/-- Source lines 341-347: `if (rangeStrategy === "bump" &&
versioningApi.matches(newVersion, currentValue)) update.isBump = true`. -/
def setIsBumpField (versioningApi : VersioningApi) (rangeStrategy : RangeStrategy)
    (newVersion : String) (currentValue : Option String)
    (u : LookupUpdate) : LookupUpdate :=
  if rangeStrategy == RangeStrategy.bump && versioningApi.«matches» newVersion currentValue then
    { u with isBump := some true }
  else u

/-- Shallow embedding of `generateUpdate` (source lines 243-349): the steps
above chained in source order, with the early exit of lines 307-312 in the
middle.  The single `await` (merge-confidence enrichment) is a parameter
function, so the embedding is a pure total function: no exception can
escape it. -/
def generateUpdate (fns : ExternalFns) (config : LookupUpdateConfig)
    (currentValue : Option String) (versioningApi : VersioningApi)
    (rangeStrategy : RangeStrategy) (currentVersion : Option String)
    (bucket : String) (release : Release) : LookupUpdate :=
  let newVersion := release.version
  -- lines 252-257: fresh update object with the newValue sentinel
  let update : LookupUpdate := { bucket := bucket, newVersion := newVersion, newValue := none }
  -- lines 259-284
  let update := copyRegistryUrl release (copyReleaseTimestamp fns release
    (copyNewDigest release (copyDownloadUrl release (copyChecksumUrl release update))))
  -- lines 286-303; nv is the value held by update.newValue from here on
  let nv := computeNewValue versioningApi currentValue rangeStrategy currentVersion newVersion
  let update := setNewValueField nv update
  -- lines 304-306
  let update := setVersionParts versioningApi newVersion update
  -- lines 307-312: early exit when no updateType is set and currentVersion is falsy
  if update.updateType.isNone && !(truthy currentVersion) then
    { update with newValue := some currentValue }
  else
    -- lines 313-347
    let update := setUpdateTypeField fns config versioningApi currentVersion newVersion update
    let update := setIsBreakingField versioningApi currentVersion newVersion update
    let update := setMergeConfidenceField fns config currentVersion newVersion update
    let update := setIsRangeField versioningApi nv update
    let update := setIsLockfileUpdateField rangeStrategy currentValue nv update
    let update := setIsBumpField versioningApi rangeStrategy newVersion currentValue update
    update

/-! Projection lemmas: each mutation step changes only its own fields and
leaves every other tracked field of the update object unchanged. -/

@[simp] theorem copyChecksumUrl_newValue (release : Release) (u : LookupUpdate) :
    (copyChecksumUrl release u).newValue = u.newValue := by unfold copyChecksumUrl; split <;> rfl

@[simp] theorem copyChecksumUrl_updateType (release : Release) (u : LookupUpdate) :
    (copyChecksumUrl release u).updateType = u.updateType := by unfold copyChecksumUrl; split <;> rfl

@[simp] theorem copyChecksumUrl_isBreaking (release : Release) (u : LookupUpdate) :
    (copyChecksumUrl release u).isBreaking = u.isBreaking := by unfold copyChecksumUrl; split <;> rfl

@[simp] theorem copyChecksumUrl_mergeConfidenceLevel (release : Release) (u : LookupUpdate) :
    (copyChecksumUrl release u).mergeConfidenceLevel = u.mergeConfidenceLevel := by unfold copyChecksumUrl; split <;> rfl

@[simp] theorem copyChecksumUrl_isRange (release : Release) (u : LookupUpdate) :
    (copyChecksumUrl release u).isRange = u.isRange := by unfold copyChecksumUrl; split <;> rfl

@[simp] theorem copyChecksumUrl_isLockfileUpdate (release : Release) (u : LookupUpdate) :
    (copyChecksumUrl release u).isLockfileUpdate = u.isLockfileUpdate := by unfold copyChecksumUrl; split <;> rfl

@[simp] theorem copyChecksumUrl_isBump (release : Release) (u : LookupUpdate) :
    (copyChecksumUrl release u).isBump = u.isBump := by unfold copyChecksumUrl; split <;> rfl

@[simp] theorem copyChecksumUrl_checksumUrl (release : Release) (u : LookupUpdate) :
    (copyChecksumUrl release u).checksumUrl = if release.checksumUrl.isSome then release.checksumUrl else u.checksumUrl := by unfold copyChecksumUrl; cases h : release.checksumUrl.isSome <;> simp [h]

@[simp] theorem copyChecksumUrl_downloadUrl (release : Release) (u : LookupUpdate) :
    (copyChecksumUrl release u).downloadUrl = u.downloadUrl := by unfold copyChecksumUrl; split <;> rfl

@[simp] theorem copyChecksumUrl_newDigest (release : Release) (u : LookupUpdate) :
    (copyChecksumUrl release u).newDigest = u.newDigest := by unfold copyChecksumUrl; split <;> rfl

@[simp] theorem copyChecksumUrl_registryUrl (release : Release) (u : LookupUpdate) :
    (copyChecksumUrl release u).registryUrl = u.registryUrl := by unfold copyChecksumUrl; split <;> rfl

@[simp] theorem copyDownloadUrl_newValue (release : Release) (u : LookupUpdate) :
    (copyDownloadUrl release u).newValue = u.newValue := by unfold copyDownloadUrl; split <;> rfl

@[simp] theorem copyDownloadUrl_updateType (release : Release) (u : LookupUpdate) :
    (copyDownloadUrl release u).updateType = u.updateType := by unfold copyDownloadUrl; split <;> rfl

@[simp] theorem copyDownloadUrl_isBreaking (release : Release) (u : LookupUpdate) :
    (copyDownloadUrl release u).isBreaking = u.isBreaking := by unfold copyDownloadUrl; split <;> rfl

@[simp] theorem copyDownloadUrl_mergeConfidenceLevel (release : Release) (u : LookupUpdate) :
    (copyDownloadUrl release u).mergeConfidenceLevel = u.mergeConfidenceLevel := by unfold copyDownloadUrl; split <;> rfl

@[simp] theorem copyDownloadUrl_isRange (release : Release) (u : LookupUpdate) :
    (copyDownloadUrl release u).isRange = u.isRange := by unfold copyDownloadUrl; split <;> rfl

@[simp] theorem copyDownloadUrl_isLockfileUpdate (release : Release) (u : LookupUpdate) :
    (copyDownloadUrl release u).isLockfileUpdate = u.isLockfileUpdate := by unfold copyDownloadUrl; split <;> rfl

@[simp] theorem copyDownloadUrl_isBump (release : Release) (u : LookupUpdate) :
    (copyDownloadUrl release u).isBump = u.isBump := by unfold copyDownloadUrl; split <;> rfl

@[simp] theorem copyDownloadUrl_checksumUrl (release : Release) (u : LookupUpdate) :
    (copyDownloadUrl release u).checksumUrl = u.checksumUrl := by unfold copyDownloadUrl; split <;> rfl

@[simp] theorem copyDownloadUrl_downloadUrl (release : Release) (u : LookupUpdate) :
    (copyDownloadUrl release u).downloadUrl = if release.downloadUrl.isSome then release.downloadUrl else u.downloadUrl := by unfold copyDownloadUrl; cases h : release.downloadUrl.isSome <;> simp [h]

@[simp] theorem copyDownloadUrl_newDigest (release : Release) (u : LookupUpdate) :
    (copyDownloadUrl release u).newDigest = u.newDigest := by unfold copyDownloadUrl; split <;> rfl

@[simp] theorem copyDownloadUrl_registryUrl (release : Release) (u : LookupUpdate) :
    (copyDownloadUrl release u).registryUrl = u.registryUrl := by unfold copyDownloadUrl; split <;> rfl

@[simp] theorem copyNewDigest_newValue (release : Release) (u : LookupUpdate) :
    (copyNewDigest release u).newValue = u.newValue := by unfold copyNewDigest; split <;> rfl

@[simp] theorem copyNewDigest_updateType (release : Release) (u : LookupUpdate) :
    (copyNewDigest release u).updateType = u.updateType := by unfold copyNewDigest; split <;> rfl

@[simp] theorem copyNewDigest_isBreaking (release : Release) (u : LookupUpdate) :
    (copyNewDigest release u).isBreaking = u.isBreaking := by unfold copyNewDigest; split <;> rfl

@[simp] theorem copyNewDigest_mergeConfidenceLevel (release : Release) (u : LookupUpdate) :
    (copyNewDigest release u).mergeConfidenceLevel = u.mergeConfidenceLevel := by unfold copyNewDigest; split <;> rfl

@[simp] theorem copyNewDigest_isRange (release : Release) (u : LookupUpdate) :
    (copyNewDigest release u).isRange = u.isRange := by unfold copyNewDigest; split <;> rfl

@[simp] theorem copyNewDigest_isLockfileUpdate (release : Release) (u : LookupUpdate) :
    (copyNewDigest release u).isLockfileUpdate = u.isLockfileUpdate := by unfold copyNewDigest; split <;> rfl

@[simp] theorem copyNewDigest_isBump (release : Release) (u : LookupUpdate) :
    (copyNewDigest release u).isBump = u.isBump := by unfold copyNewDigest; split <;> rfl

@[simp] theorem copyNewDigest_checksumUrl (release : Release) (u : LookupUpdate) :
    (copyNewDigest release u).checksumUrl = u.checksumUrl := by unfold copyNewDigest; split <;> rfl

@[simp] theorem copyNewDigest_downloadUrl (release : Release) (u : LookupUpdate) :
    (copyNewDigest release u).downloadUrl = u.downloadUrl := by unfold copyNewDigest; split <;> rfl

@[simp] theorem copyNewDigest_newDigest (release : Release) (u : LookupUpdate) :
    (copyNewDigest release u).newDigest = if release.newDigest.isSome then release.newDigest else u.newDigest := by unfold copyNewDigest; cases h : release.newDigest.isSome <;> simp [h]

@[simp] theorem copyNewDigest_registryUrl (release : Release) (u : LookupUpdate) :
    (copyNewDigest release u).registryUrl = u.registryUrl := by unfold copyNewDigest; split <;> rfl

@[simp] theorem copyReleaseTimestamp_newValue (fns : ExternalFns) (release : Release) (u : LookupUpdate) :
    (copyReleaseTimestamp fns release u).newValue = u.newValue := by unfold copyReleaseTimestamp; split <;> (try split) <;> rfl

@[simp] theorem copyReleaseTimestamp_updateType (fns : ExternalFns) (release : Release) (u : LookupUpdate) :
    (copyReleaseTimestamp fns release u).updateType = u.updateType := by unfold copyReleaseTimestamp; split <;> (try split) <;> rfl

@[simp] theorem copyReleaseTimestamp_isBreaking (fns : ExternalFns) (release : Release) (u : LookupUpdate) :
    (copyReleaseTimestamp fns release u).isBreaking = u.isBreaking := by unfold copyReleaseTimestamp; split <;> (try split) <;> rfl

@[simp] theorem copyReleaseTimestamp_mergeConfidenceLevel (fns : ExternalFns) (release : Release) (u : LookupUpdate) :
    (copyReleaseTimestamp fns release u).mergeConfidenceLevel = u.mergeConfidenceLevel := by unfold copyReleaseTimestamp; split <;> (try split) <;> rfl

@[simp] theorem copyReleaseTimestamp_isRange (fns : ExternalFns) (release : Release) (u : LookupUpdate) :
    (copyReleaseTimestamp fns release u).isRange = u.isRange := by unfold copyReleaseTimestamp; split <;> (try split) <;> rfl

@[simp] theorem copyReleaseTimestamp_isLockfileUpdate (fns : ExternalFns) (release : Release) (u : LookupUpdate) :
    (copyReleaseTimestamp fns release u).isLockfileUpdate = u.isLockfileUpdate := by unfold copyReleaseTimestamp; split <;> (try split) <;> rfl

@[simp] theorem copyReleaseTimestamp_isBump (fns : ExternalFns) (release : Release) (u : LookupUpdate) :
    (copyReleaseTimestamp fns release u).isBump = u.isBump := by unfold copyReleaseTimestamp; split <;> (try split) <;> rfl

@[simp] theorem copyReleaseTimestamp_checksumUrl (fns : ExternalFns) (release : Release) (u : LookupUpdate) :
    (copyReleaseTimestamp fns release u).checksumUrl = u.checksumUrl := by unfold copyReleaseTimestamp; split <;> (try split) <;> rfl

@[simp] theorem copyReleaseTimestamp_downloadUrl (fns : ExternalFns) (release : Release) (u : LookupUpdate) :
    (copyReleaseTimestamp fns release u).downloadUrl = u.downloadUrl := by unfold copyReleaseTimestamp; split <;> (try split) <;> rfl

@[simp] theorem copyReleaseTimestamp_newDigest (fns : ExternalFns) (release : Release) (u : LookupUpdate) :
    (copyReleaseTimestamp fns release u).newDigest = u.newDigest := by unfold copyReleaseTimestamp; split <;> (try split) <;> rfl

@[simp] theorem copyReleaseTimestamp_registryUrl (fns : ExternalFns) (release : Release) (u : LookupUpdate) :
    (copyReleaseTimestamp fns release u).registryUrl = u.registryUrl := by unfold copyReleaseTimestamp; split <;> (try split) <;> rfl

@[simp] theorem copyRegistryUrl_newValue (release : Release) (u : LookupUpdate) :
    (copyRegistryUrl release u).newValue = u.newValue := by unfold copyRegistryUrl; split <;> rfl

@[simp] theorem copyRegistryUrl_updateType (release : Release) (u : LookupUpdate) :
    (copyRegistryUrl release u).updateType = u.updateType := by unfold copyRegistryUrl; split <;> rfl

@[simp] theorem copyRegistryUrl_isBreaking (release : Release) (u : LookupUpdate) :
    (copyRegistryUrl release u).isBreaking = u.isBreaking := by unfold copyRegistryUrl; split <;> rfl

@[simp] theorem copyRegistryUrl_mergeConfidenceLevel (release : Release) (u : LookupUpdate) :
    (copyRegistryUrl release u).mergeConfidenceLevel = u.mergeConfidenceLevel := by unfold copyRegistryUrl; split <;> rfl

@[simp] theorem copyRegistryUrl_isRange (release : Release) (u : LookupUpdate) :
    (copyRegistryUrl release u).isRange = u.isRange := by unfold copyRegistryUrl; split <;> rfl

@[simp] theorem copyRegistryUrl_isLockfileUpdate (release : Release) (u : LookupUpdate) :
    (copyRegistryUrl release u).isLockfileUpdate = u.isLockfileUpdate := by unfold copyRegistryUrl; split <;> rfl

@[simp] theorem copyRegistryUrl_isBump (release : Release) (u : LookupUpdate) :
    (copyRegistryUrl release u).isBump = u.isBump := by unfold copyRegistryUrl; split <;> rfl

@[simp] theorem copyRegistryUrl_checksumUrl (release : Release) (u : LookupUpdate) :
    (copyRegistryUrl release u).checksumUrl = u.checksumUrl := by unfold copyRegistryUrl; split <;> rfl

@[simp] theorem copyRegistryUrl_downloadUrl (release : Release) (u : LookupUpdate) :
    (copyRegistryUrl release u).downloadUrl = u.downloadUrl := by unfold copyRegistryUrl; split <;> rfl

@[simp] theorem copyRegistryUrl_newDigest (release : Release) (u : LookupUpdate) :
    (copyRegistryUrl release u).newDigest = u.newDigest := by unfold copyRegistryUrl; split <;> rfl

@[simp] theorem copyRegistryUrl_registryUrl (release : Release) (u : LookupUpdate) :
    (copyRegistryUrl release u).registryUrl = if release.registryUrl.isSome then release.registryUrl else u.registryUrl := by unfold copyRegistryUrl; cases h : release.registryUrl.isSome <;> simp [h]

@[simp] theorem setNewValueField_newValue (nv : Option String) (u : LookupUpdate) :
    (setNewValueField nv u).newValue = some nv := rfl

@[simp] theorem setNewValueField_updateType (nv : Option String) (u : LookupUpdate) :
    (setNewValueField nv u).updateType = u.updateType := rfl

@[simp] theorem setNewValueField_isBreaking (nv : Option String) (u : LookupUpdate) :
    (setNewValueField nv u).isBreaking = u.isBreaking := rfl

@[simp] theorem setNewValueField_mergeConfidenceLevel (nv : Option String) (u : LookupUpdate) :
    (setNewValueField nv u).mergeConfidenceLevel = u.mergeConfidenceLevel := rfl

@[simp] theorem setNewValueField_isRange (nv : Option String) (u : LookupUpdate) :
    (setNewValueField nv u).isRange = u.isRange := rfl

@[simp] theorem setNewValueField_isLockfileUpdate (nv : Option String) (u : LookupUpdate) :
    (setNewValueField nv u).isLockfileUpdate = u.isLockfileUpdate := rfl

@[simp] theorem setNewValueField_isBump (nv : Option String) (u : LookupUpdate) :
    (setNewValueField nv u).isBump = u.isBump := rfl

@[simp] theorem setNewValueField_checksumUrl (nv : Option String) (u : LookupUpdate) :
    (setNewValueField nv u).checksumUrl = u.checksumUrl := rfl

@[simp] theorem setNewValueField_downloadUrl (nv : Option String) (u : LookupUpdate) :
    (setNewValueField nv u).downloadUrl = u.downloadUrl := rfl

@[simp] theorem setNewValueField_newDigest (nv : Option String) (u : LookupUpdate) :
    (setNewValueField nv u).newDigest = u.newDigest := rfl

@[simp] theorem setNewValueField_registryUrl (nv : Option String) (u : LookupUpdate) :
    (setNewValueField nv u).registryUrl = u.registryUrl := rfl

@[simp] theorem setVersionParts_newValue (versioningApi : VersioningApi) (newVersion : String) (u : LookupUpdate) :
    (setVersionParts versioningApi newVersion u).newValue = u.newValue := rfl

@[simp] theorem setVersionParts_updateType (versioningApi : VersioningApi) (newVersion : String) (u : LookupUpdate) :
    (setVersionParts versioningApi newVersion u).updateType = u.updateType := rfl

@[simp] theorem setVersionParts_isBreaking (versioningApi : VersioningApi) (newVersion : String) (u : LookupUpdate) :
    (setVersionParts versioningApi newVersion u).isBreaking = u.isBreaking := rfl

@[simp] theorem setVersionParts_mergeConfidenceLevel (versioningApi : VersioningApi) (newVersion : String) (u : LookupUpdate) :
    (setVersionParts versioningApi newVersion u).mergeConfidenceLevel = u.mergeConfidenceLevel := rfl

@[simp] theorem setVersionParts_isRange (versioningApi : VersioningApi) (newVersion : String) (u : LookupUpdate) :
    (setVersionParts versioningApi newVersion u).isRange = u.isRange := rfl

@[simp] theorem setVersionParts_isLockfileUpdate (versioningApi : VersioningApi) (newVersion : String) (u : LookupUpdate) :
    (setVersionParts versioningApi newVersion u).isLockfileUpdate = u.isLockfileUpdate := rfl

@[simp] theorem setVersionParts_isBump (versioningApi : VersioningApi) (newVersion : String) (u : LookupUpdate) :
    (setVersionParts versioningApi newVersion u).isBump = u.isBump := rfl

@[simp] theorem setVersionParts_checksumUrl (versioningApi : VersioningApi) (newVersion : String) (u : LookupUpdate) :
    (setVersionParts versioningApi newVersion u).checksumUrl = u.checksumUrl := rfl

@[simp] theorem setVersionParts_downloadUrl (versioningApi : VersioningApi) (newVersion : String) (u : LookupUpdate) :
    (setVersionParts versioningApi newVersion u).downloadUrl = u.downloadUrl := rfl

@[simp] theorem setVersionParts_newDigest (versioningApi : VersioningApi) (newVersion : String) (u : LookupUpdate) :
    (setVersionParts versioningApi newVersion u).newDigest = u.newDigest := rfl

@[simp] theorem setVersionParts_registryUrl (versioningApi : VersioningApi) (newVersion : String) (u : LookupUpdate) :
    (setVersionParts versioningApi newVersion u).registryUrl = u.registryUrl := rfl

@[simp] theorem setUpdateTypeField_newValue (fns : ExternalFns) (config : LookupUpdateConfig) (versioningApi : VersioningApi) (currentVersion : Option String) (newVersion : String) (u : LookupUpdate) :
    (setUpdateTypeField fns config versioningApi currentVersion newVersion u).newValue = u.newValue := rfl

@[simp] theorem setUpdateTypeField_updateType (fns : ExternalFns) (config : LookupUpdateConfig) (versioningApi : VersioningApi) (currentVersion : Option String) (newVersion : String) (u : LookupUpdate) :
    (setUpdateTypeField fns config versioningApi currentVersion newVersion u).updateType = some (u.updateType.getD (fns.getUpdateType config versioningApi currentVersion newVersion)) := rfl

@[simp] theorem setUpdateTypeField_isBreaking (fns : ExternalFns) (config : LookupUpdateConfig) (versioningApi : VersioningApi) (currentVersion : Option String) (newVersion : String) (u : LookupUpdate) :
    (setUpdateTypeField fns config versioningApi currentVersion newVersion u).isBreaking = u.isBreaking := rfl

@[simp] theorem setUpdateTypeField_mergeConfidenceLevel (fns : ExternalFns) (config : LookupUpdateConfig) (versioningApi : VersioningApi) (currentVersion : Option String) (newVersion : String) (u : LookupUpdate) :
    (setUpdateTypeField fns config versioningApi currentVersion newVersion u).mergeConfidenceLevel = u.mergeConfidenceLevel := rfl

@[simp] theorem setUpdateTypeField_isRange (fns : ExternalFns) (config : LookupUpdateConfig) (versioningApi : VersioningApi) (currentVersion : Option String) (newVersion : String) (u : LookupUpdate) :
    (setUpdateTypeField fns config versioningApi currentVersion newVersion u).isRange = u.isRange := rfl

@[simp] theorem setUpdateTypeField_isLockfileUpdate (fns : ExternalFns) (config : LookupUpdateConfig) (versioningApi : VersioningApi) (currentVersion : Option String) (newVersion : String) (u : LookupUpdate) :
    (setUpdateTypeField fns config versioningApi currentVersion newVersion u).isLockfileUpdate = u.isLockfileUpdate := rfl

@[simp] theorem setUpdateTypeField_isBump (fns : ExternalFns) (config : LookupUpdateConfig) (versioningApi : VersioningApi) (currentVersion : Option String) (newVersion : String) (u : LookupUpdate) :
    (setUpdateTypeField fns config versioningApi currentVersion newVersion u).isBump = u.isBump := rfl

@[simp] theorem setUpdateTypeField_checksumUrl (fns : ExternalFns) (config : LookupUpdateConfig) (versioningApi : VersioningApi) (currentVersion : Option String) (newVersion : String) (u : LookupUpdate) :
    (setUpdateTypeField fns config versioningApi currentVersion newVersion u).checksumUrl = u.checksumUrl := rfl

@[simp] theorem setUpdateTypeField_downloadUrl (fns : ExternalFns) (config : LookupUpdateConfig) (versioningApi : VersioningApi) (currentVersion : Option String) (newVersion : String) (u : LookupUpdate) :
    (setUpdateTypeField fns config versioningApi currentVersion newVersion u).downloadUrl = u.downloadUrl := rfl

@[simp] theorem setUpdateTypeField_newDigest (fns : ExternalFns) (config : LookupUpdateConfig) (versioningApi : VersioningApi) (currentVersion : Option String) (newVersion : String) (u : LookupUpdate) :
    (setUpdateTypeField fns config versioningApi currentVersion newVersion u).newDigest = u.newDigest := rfl

@[simp] theorem setUpdateTypeField_registryUrl (fns : ExternalFns) (config : LookupUpdateConfig) (versioningApi : VersioningApi) (currentVersion : Option String) (newVersion : String) (u : LookupUpdate) :
    (setUpdateTypeField fns config versioningApi currentVersion newVersion u).registryUrl = u.registryUrl := rfl

@[simp] theorem setIsBreakingField_newValue (versioningApi : VersioningApi) (currentVersion : Option String) (newVersion : String) (u : LookupUpdate) :
    (setIsBreakingField versioningApi currentVersion newVersion u).newValue = u.newValue := by unfold setIsBreakingField; cases versioningApi.isBreaking <;> rfl

@[simp] theorem setIsBreakingField_updateType (versioningApi : VersioningApi) (currentVersion : Option String) (newVersion : String) (u : LookupUpdate) :
    (setIsBreakingField versioningApi currentVersion newVersion u).updateType = u.updateType := by unfold setIsBreakingField; cases versioningApi.isBreaking <;> rfl

@[simp] theorem setIsBreakingField_isBreaking (versioningApi : VersioningApi) (currentVersion : Option String) (newVersion : String) (u : LookupUpdate) :
    (setIsBreakingField versioningApi currentVersion newVersion u).isBreaking = some (match versioningApi.isBreaking with | some f => f currentVersion newVersion | none => u.updateType == some UpdateType.major) := by unfold setIsBreakingField; cases versioningApi.isBreaking <;> rfl

@[simp] theorem setIsBreakingField_mergeConfidenceLevel (versioningApi : VersioningApi) (currentVersion : Option String) (newVersion : String) (u : LookupUpdate) :
    (setIsBreakingField versioningApi currentVersion newVersion u).mergeConfidenceLevel = u.mergeConfidenceLevel := by unfold setIsBreakingField; cases versioningApi.isBreaking <;> rfl

@[simp] theorem setIsBreakingField_isRange (versioningApi : VersioningApi) (currentVersion : Option String) (newVersion : String) (u : LookupUpdate) :
    (setIsBreakingField versioningApi currentVersion newVersion u).isRange = u.isRange := by unfold setIsBreakingField; cases versioningApi.isBreaking <;> rfl

@[simp] theorem setIsBreakingField_isLockfileUpdate (versioningApi : VersioningApi) (currentVersion : Option String) (newVersion : String) (u : LookupUpdate) :
    (setIsBreakingField versioningApi currentVersion newVersion u).isLockfileUpdate = u.isLockfileUpdate := by unfold setIsBreakingField; cases versioningApi.isBreaking <;> rfl

@[simp] theorem setIsBreakingField_isBump (versioningApi : VersioningApi) (currentVersion : Option String) (newVersion : String) (u : LookupUpdate) :
    (setIsBreakingField versioningApi currentVersion newVersion u).isBump = u.isBump := by unfold setIsBreakingField; cases versioningApi.isBreaking <;> rfl

@[simp] theorem setIsBreakingField_checksumUrl (versioningApi : VersioningApi) (currentVersion : Option String) (newVersion : String) (u : LookupUpdate) :
    (setIsBreakingField versioningApi currentVersion newVersion u).checksumUrl = u.checksumUrl := by unfold setIsBreakingField; cases versioningApi.isBreaking <;> rfl

@[simp] theorem setIsBreakingField_downloadUrl (versioningApi : VersioningApi) (currentVersion : Option String) (newVersion : String) (u : LookupUpdate) :
    (setIsBreakingField versioningApi currentVersion newVersion u).downloadUrl = u.downloadUrl := by unfold setIsBreakingField; cases versioningApi.isBreaking <;> rfl

@[simp] theorem setIsBreakingField_newDigest (versioningApi : VersioningApi) (currentVersion : Option String) (newVersion : String) (u : LookupUpdate) :
    (setIsBreakingField versioningApi currentVersion newVersion u).newDigest = u.newDigest := by unfold setIsBreakingField; cases versioningApi.isBreaking <;> rfl

@[simp] theorem setIsBreakingField_registryUrl (versioningApi : VersioningApi) (currentVersion : Option String) (newVersion : String) (u : LookupUpdate) :
    (setIsBreakingField versioningApi currentVersion newVersion u).registryUrl = u.registryUrl := by unfold setIsBreakingField; cases versioningApi.isBreaking <;> rfl

@[simp] theorem setMergeConfidenceField_newValue (fns : ExternalFns) (config : LookupUpdateConfig) (currentVersion : Option String) (newVersion : String) (u : LookupUpdate) :
    (setMergeConfidenceField fns config currentVersion newVersion u).newValue = u.newValue := by unfold setMergeConfidenceField; split <;> rfl

@[simp] theorem setMergeConfidenceField_updateType (fns : ExternalFns) (config : LookupUpdateConfig) (currentVersion : Option String) (newVersion : String) (u : LookupUpdate) :
    (setMergeConfidenceField fns config currentVersion newVersion u).updateType = u.updateType := by unfold setMergeConfidenceField; split <;> rfl

@[simp] theorem setMergeConfidenceField_isBreaking (fns : ExternalFns) (config : LookupUpdateConfig) (currentVersion : Option String) (newVersion : String) (u : LookupUpdate) :
    (setMergeConfidenceField fns config currentVersion newVersion u).isBreaking = u.isBreaking := by unfold setMergeConfidenceField; split <;> rfl

@[simp] theorem setMergeConfidenceField_mergeConfidenceLevel (fns : ExternalFns) (config : LookupUpdateConfig) (currentVersion : Option String) (newVersion : String) (u : LookupUpdate) :
    (setMergeConfidenceField fns config currentVersion newVersion u).mergeConfidenceLevel = if hasConfidenceRule config then fns.getMergeConfidenceLevel config.datasource config.packageName currentVersion newVersion u.updateType else u.mergeConfidenceLevel := by unfold setMergeConfidenceField; cases h : hasConfidenceRule config <;> simp [h]

@[simp] theorem setMergeConfidenceField_isRange (fns : ExternalFns) (config : LookupUpdateConfig) (currentVersion : Option String) (newVersion : String) (u : LookupUpdate) :
    (setMergeConfidenceField fns config currentVersion newVersion u).isRange = u.isRange := by unfold setMergeConfidenceField; split <;> rfl

@[simp] theorem setMergeConfidenceField_isLockfileUpdate (fns : ExternalFns) (config : LookupUpdateConfig) (currentVersion : Option String) (newVersion : String) (u : LookupUpdate) :
    (setMergeConfidenceField fns config currentVersion newVersion u).isLockfileUpdate = u.isLockfileUpdate := by unfold setMergeConfidenceField; split <;> rfl

@[simp] theorem setMergeConfidenceField_isBump (fns : ExternalFns) (config : LookupUpdateConfig) (currentVersion : Option String) (newVersion : String) (u : LookupUpdate) :
    (setMergeConfidenceField fns config currentVersion newVersion u).isBump = u.isBump := by unfold setMergeConfidenceField; split <;> rfl

@[simp] theorem setMergeConfidenceField_checksumUrl (fns : ExternalFns) (config : LookupUpdateConfig) (currentVersion : Option String) (newVersion : String) (u : LookupUpdate) :
    (setMergeConfidenceField fns config currentVersion newVersion u).checksumUrl = u.checksumUrl := by unfold setMergeConfidenceField; split <;> rfl

@[simp] theorem setMergeConfidenceField_downloadUrl (fns : ExternalFns) (config : LookupUpdateConfig) (currentVersion : Option String) (newVersion : String) (u : LookupUpdate) :
    (setMergeConfidenceField fns config currentVersion newVersion u).downloadUrl = u.downloadUrl := by unfold setMergeConfidenceField; split <;> rfl

@[simp] theorem setMergeConfidenceField_newDigest (fns : ExternalFns) (config : LookupUpdateConfig) (currentVersion : Option String) (newVersion : String) (u : LookupUpdate) :
    (setMergeConfidenceField fns config currentVersion newVersion u).newDigest = u.newDigest := by unfold setMergeConfidenceField; split <;> rfl

@[simp] theorem setMergeConfidenceField_registryUrl (fns : ExternalFns) (config : LookupUpdateConfig) (currentVersion : Option String) (newVersion : String) (u : LookupUpdate) :
    (setMergeConfidenceField fns config currentVersion newVersion u).registryUrl = u.registryUrl := by unfold setMergeConfidenceField; split <;> rfl

@[simp] theorem setIsRangeField_newValue (versioningApi : VersioningApi) (nv : Option String) (u : LookupUpdate) :
    (setIsRangeField versioningApi nv u).newValue = u.newValue := by unfold setIsRangeField; split <;> rfl

@[simp] theorem setIsRangeField_updateType (versioningApi : VersioningApi) (nv : Option String) (u : LookupUpdate) :
    (setIsRangeField versioningApi nv u).updateType = u.updateType := by unfold setIsRangeField; split <;> rfl

@[simp] theorem setIsRangeField_isBreaking (versioningApi : VersioningApi) (nv : Option String) (u : LookupUpdate) :
    (setIsRangeField versioningApi nv u).isBreaking = u.isBreaking := by unfold setIsRangeField; split <;> rfl

@[simp] theorem setIsRangeField_mergeConfidenceLevel (versioningApi : VersioningApi) (nv : Option String) (u : LookupUpdate) :
    (setIsRangeField versioningApi nv u).mergeConfidenceLevel = u.mergeConfidenceLevel := by unfold setIsRangeField; split <;> rfl

@[simp] theorem setIsRangeField_isRange (versioningApi : VersioningApi) (nv : Option String) (u : LookupUpdate) :
    (setIsRangeField versioningApi nv u).isRange = if !(versioningApi.isVersion nv) then some true else u.isRange := by unfold setIsRangeField; cases h : versioningApi.isVersion nv <;> simp [h]

@[simp] theorem setIsRangeField_isLockfileUpdate (versioningApi : VersioningApi) (nv : Option String) (u : LookupUpdate) :
    (setIsRangeField versioningApi nv u).isLockfileUpdate = u.isLockfileUpdate := by unfold setIsRangeField; split <;> rfl

@[simp] theorem setIsRangeField_isBump (versioningApi : VersioningApi) (nv : Option String) (u : LookupUpdate) :
    (setIsRangeField versioningApi nv u).isBump = u.isBump := by unfold setIsRangeField; split <;> rfl

@[simp] theorem setIsRangeField_checksumUrl (versioningApi : VersioningApi) (nv : Option String) (u : LookupUpdate) :
    (setIsRangeField versioningApi nv u).checksumUrl = u.checksumUrl := by unfold setIsRangeField; split <;> rfl

@[simp] theorem setIsRangeField_downloadUrl (versioningApi : VersioningApi) (nv : Option String) (u : LookupUpdate) :
    (setIsRangeField versioningApi nv u).downloadUrl = u.downloadUrl := by unfold setIsRangeField; split <;> rfl

@[simp] theorem setIsRangeField_newDigest (versioningApi : VersioningApi) (nv : Option String) (u : LookupUpdate) :
    (setIsRangeField versioningApi nv u).newDigest = u.newDigest := by unfold setIsRangeField; split <;> rfl

@[simp] theorem setIsRangeField_registryUrl (versioningApi : VersioningApi) (nv : Option String) (u : LookupUpdate) :
    (setIsRangeField versioningApi nv u).registryUrl = u.registryUrl := by unfold setIsRangeField; split <;> rfl

@[simp] theorem setIsLockfileUpdateField_newValue (rangeStrategy : RangeStrategy) (currentValue : Option String) (nv : Option String) (u : LookupUpdate) :
    (setIsLockfileUpdateField rangeStrategy currentValue nv u).newValue = u.newValue := by unfold setIsLockfileUpdateField; split <;> rfl

@[simp] theorem setIsLockfileUpdateField_updateType (rangeStrategy : RangeStrategy) (currentValue : Option String) (nv : Option String) (u : LookupUpdate) :
    (setIsLockfileUpdateField rangeStrategy currentValue nv u).updateType = u.updateType := by unfold setIsLockfileUpdateField; split <;> rfl

@[simp] theorem setIsLockfileUpdateField_isBreaking (rangeStrategy : RangeStrategy) (currentValue : Option String) (nv : Option String) (u : LookupUpdate) :
    (setIsLockfileUpdateField rangeStrategy currentValue nv u).isBreaking = u.isBreaking := by unfold setIsLockfileUpdateField; split <;> rfl

@[simp] theorem setIsLockfileUpdateField_mergeConfidenceLevel (rangeStrategy : RangeStrategy) (currentValue : Option String) (nv : Option String) (u : LookupUpdate) :
    (setIsLockfileUpdateField rangeStrategy currentValue nv u).mergeConfidenceLevel = u.mergeConfidenceLevel := by unfold setIsLockfileUpdateField; split <;> rfl

@[simp] theorem setIsLockfileUpdateField_isRange (rangeStrategy : RangeStrategy) (currentValue : Option String) (nv : Option String) (u : LookupUpdate) :
    (setIsLockfileUpdateField rangeStrategy currentValue nv u).isRange = u.isRange := by unfold setIsLockfileUpdateField; split <;> rfl

@[simp] theorem setIsLockfileUpdateField_isLockfileUpdate (rangeStrategy : RangeStrategy) (currentValue : Option String) (nv : Option String) (u : LookupUpdate) :
    (setIsLockfileUpdateField rangeStrategy currentValue nv u).isLockfileUpdate = if rangeStrategy == RangeStrategy.updateLockfile && currentValue == nv then some true else u.isLockfileUpdate := by unfold setIsLockfileUpdateField; cases h : (rangeStrategy == RangeStrategy.updateLockfile && currentValue == nv) <;> simp [h]

@[simp] theorem setIsLockfileUpdateField_isBump (rangeStrategy : RangeStrategy) (currentValue : Option String) (nv : Option String) (u : LookupUpdate) :
    (setIsLockfileUpdateField rangeStrategy currentValue nv u).isBump = u.isBump := by unfold setIsLockfileUpdateField; split <;> rfl

@[simp] theorem setIsLockfileUpdateField_checksumUrl (rangeStrategy : RangeStrategy) (currentValue : Option String) (nv : Option String) (u : LookupUpdate) :
    (setIsLockfileUpdateField rangeStrategy currentValue nv u).checksumUrl = u.checksumUrl := by unfold setIsLockfileUpdateField; split <;> rfl

@[simp] theorem setIsLockfileUpdateField_downloadUrl (rangeStrategy : RangeStrategy) (currentValue : Option String) (nv : Option String) (u : LookupUpdate) :
    (setIsLockfileUpdateField rangeStrategy currentValue nv u).downloadUrl = u.downloadUrl := by unfold setIsLockfileUpdateField; split <;> rfl

@[simp] theorem setIsLockfileUpdateField_newDigest (rangeStrategy : RangeStrategy) (currentValue : Option String) (nv : Option String) (u : LookupUpdate) :
    (setIsLockfileUpdateField rangeStrategy currentValue nv u).newDigest = u.newDigest := by unfold setIsLockfileUpdateField; split <;> rfl

@[simp] theorem setIsLockfileUpdateField_registryUrl (rangeStrategy : RangeStrategy) (currentValue : Option String) (nv : Option String) (u : LookupUpdate) :
    (setIsLockfileUpdateField rangeStrategy currentValue nv u).registryUrl = u.registryUrl := by unfold setIsLockfileUpdateField; split <;> rfl

@[simp] theorem setIsBumpField_newValue (versioningApi : VersioningApi) (rangeStrategy : RangeStrategy) (newVersion : String) (currentValue : Option String) (u : LookupUpdate) :
    (setIsBumpField versioningApi rangeStrategy newVersion currentValue u).newValue = u.newValue := by unfold setIsBumpField; split <;> rfl

@[simp] theorem setIsBumpField_updateType (versioningApi : VersioningApi) (rangeStrategy : RangeStrategy) (newVersion : String) (currentValue : Option String) (u : LookupUpdate) :
    (setIsBumpField versioningApi rangeStrategy newVersion currentValue u).updateType = u.updateType := by unfold setIsBumpField; split <;> rfl

@[simp] theorem setIsBumpField_isBreaking (versioningApi : VersioningApi) (rangeStrategy : RangeStrategy) (newVersion : String) (currentValue : Option String) (u : LookupUpdate) :
    (setIsBumpField versioningApi rangeStrategy newVersion currentValue u).isBreaking = u.isBreaking := by unfold setIsBumpField; split <;> rfl

@[simp] theorem setIsBumpField_mergeConfidenceLevel (versioningApi : VersioningApi) (rangeStrategy : RangeStrategy) (newVersion : String) (currentValue : Option String) (u : LookupUpdate) :
    (setIsBumpField versioningApi rangeStrategy newVersion currentValue u).mergeConfidenceLevel = u.mergeConfidenceLevel := by unfold setIsBumpField; split <;> rfl

@[simp] theorem setIsBumpField_isRange (versioningApi : VersioningApi) (rangeStrategy : RangeStrategy) (newVersion : String) (currentValue : Option String) (u : LookupUpdate) :
    (setIsBumpField versioningApi rangeStrategy newVersion currentValue u).isRange = u.isRange := by unfold setIsBumpField; split <;> rfl

@[simp] theorem setIsBumpField_isLockfileUpdate (versioningApi : VersioningApi) (rangeStrategy : RangeStrategy) (newVersion : String) (currentValue : Option String) (u : LookupUpdate) :
    (setIsBumpField versioningApi rangeStrategy newVersion currentValue u).isLockfileUpdate = u.isLockfileUpdate := by unfold setIsBumpField; split <;> rfl

@[simp] theorem setIsBumpField_isBump (versioningApi : VersioningApi) (rangeStrategy : RangeStrategy) (newVersion : String) (currentValue : Option String) (u : LookupUpdate) :
    (setIsBumpField versioningApi rangeStrategy newVersion currentValue u).isBump = if rangeStrategy == RangeStrategy.bump && versioningApi.«matches» newVersion currentValue then some true else u.isBump := by unfold setIsBumpField; cases h : (rangeStrategy == RangeStrategy.bump && versioningApi.«matches» newVersion currentValue) <;> simp [h]

@[simp] theorem setIsBumpField_checksumUrl (versioningApi : VersioningApi) (rangeStrategy : RangeStrategy) (newVersion : String) (currentValue : Option String) (u : LookupUpdate) :
    (setIsBumpField versioningApi rangeStrategy newVersion currentValue u).checksumUrl = u.checksumUrl := by unfold setIsBumpField; split <;> rfl

@[simp] theorem setIsBumpField_downloadUrl (versioningApi : VersioningApi) (rangeStrategy : RangeStrategy) (newVersion : String) (currentValue : Option String) (u : LookupUpdate) :
    (setIsBumpField versioningApi rangeStrategy newVersion currentValue u).downloadUrl = u.downloadUrl := by unfold setIsBumpField; split <;> rfl

@[simp] theorem setIsBumpField_newDigest (versioningApi : VersioningApi) (rangeStrategy : RangeStrategy) (newVersion : String) (currentValue : Option String) (u : LookupUpdate) :
    (setIsBumpField versioningApi rangeStrategy newVersion currentValue u).newDigest = u.newDigest := by unfold setIsBumpField; split <;> rfl

@[simp] theorem setIsBumpField_registryUrl (versioningApi : VersioningApi) (rangeStrategy : RangeStrategy) (newVersion : String) (currentValue : Option String) (u : LookupUpdate) :
    (setIsBumpField versioningApi rangeStrategy newVersion currentValue u).registryUrl = u.registryUrl := by unfold setIsBumpField; split <;> rfl

/-! Characterizations of the fields of the update object returned by
`generateUpdate`, one lemma per field that the specified properties
mention.  Since the freshly constructed update object has no `updateType`,
the early-exit condition of lines 307-312 reduces to "`currentVersion` is
falsy". -/

theorem generateUpdate_newValue_eq (fns : ExternalFns) (config : LookupUpdateConfig)
    (cval : Option String) (api : VersioningApi) (rs : RangeStrategy)
    (cvn : Option String) (b : String) (r : Release) :
    (generateUpdate fns config cval api rs cvn b r).newValue =
      some (if truthy cvn then computeNewValue api cval rs cvn r.version else cval) := by
  cases h : truthy cvn <;> simp [generateUpdate, h]

theorem generateUpdate_updateType_eq (fns : ExternalFns) (config : LookupUpdateConfig)
    (cval : Option String) (api : VersioningApi) (rs : RangeStrategy)
    (cvn : Option String) (b : String) (r : Release) :
    (generateUpdate fns config cval api rs cvn b r).updateType =
      if truthy cvn then some (fns.getUpdateType config api cvn r.version) else none := by
  cases h : truthy cvn <;> simp [generateUpdate, h]

theorem generateUpdate_isBreaking_eq (fns : ExternalFns) (config : LookupUpdateConfig)
    (cval : Option String) (api : VersioningApi) (rs : RangeStrategy)
    (cvn : Option String) (b : String) (r : Release) :
    (generateUpdate fns config cval api rs cvn b r).isBreaking =
      if truthy cvn then
        some (match api.isBreaking with | some f => f cvn r.version | none => fns.getUpdateType config api cvn r.version == UpdateType.major)
      else none := by
  cases h : truthy cvn <;> cases hib : api.isBreaking <;>
    simp [generateUpdate, h, hib]

theorem generateUpdate_mergeConfidenceLevel_eq (fns : ExternalFns) (config : LookupUpdateConfig)
    (cval : Option String) (api : VersioningApi) (rs : RangeStrategy)
    (cvn : Option String) (b : String) (r : Release) :
    (generateUpdate fns config cval api rs cvn b r).mergeConfidenceLevel =
      if truthy cvn && hasConfidenceRule config then
        fns.getMergeConfidenceLevel config.datasource config.packageName cvn r.version (some (fns.getUpdateType config api cvn r.version))
      else none := by
  cases h : truthy cvn <;> cases hc : hasConfidenceRule config <;>
    simp [generateUpdate, h, hc]

theorem generateUpdate_isRange_eq (fns : ExternalFns) (config : LookupUpdateConfig)
    (cval : Option String) (api : VersioningApi) (rs : RangeStrategy)
    (cvn : Option String) (b : String) (r : Release) :
    (generateUpdate fns config cval api rs cvn b r).isRange =
      if truthy cvn && !(api.isVersion (computeNewValue api cval rs cvn r.version)) then
        some true
      else none := by
  cases h : truthy cvn <;> cases hv : api.isVersion (computeNewValue api cval rs cvn r.version) <;>
    simp [generateUpdate, h, hv]

theorem generateUpdate_isLockfileUpdate_eq (fns : ExternalFns) (config : LookupUpdateConfig)
    (cval : Option String) (api : VersioningApi) (rs : RangeStrategy)
    (cvn : Option String) (b : String) (r : Release) :
    (generateUpdate fns config cval api rs cvn b r).isLockfileUpdate =
      if truthy cvn && (rs == RangeStrategy.updateLockfile && cval == computeNewValue api cval rs cvn r.version) then
        some true
      else none := by
  cases h : truthy cvn <;>
    cases hc : (rs == RangeStrategy.updateLockfile && cval == computeNewValue api cval rs cvn r.version) <;>
    simp [generateUpdate, h, hc]

theorem generateUpdate_isBump_eq (fns : ExternalFns) (config : LookupUpdateConfig)
    (cval : Option String) (api : VersioningApi) (rs : RangeStrategy)
    (cvn : Option String) (b : String) (r : Release) :
    (generateUpdate fns config cval api rs cvn b r).isBump =
      if truthy cvn && (rs == RangeStrategy.bump && api.«matches» r.version cval) then
        some true
      else none := by
  cases h : truthy cvn <;>
    cases hc : (rs == RangeStrategy.bump && api.«matches» r.version cval) <;>
    simp [generateUpdate, h, hc]

theorem generateUpdate_checksumUrl_eq (fns : ExternalFns) (config : LookupUpdateConfig)
    (cval : Option String) (api : VersioningApi) (rs : RangeStrategy)
    (cvn : Option String) (b : String) (r : Release) :
    (generateUpdate fns config cval api rs cvn b r).checksumUrl = r.checksumUrl := by
  cases h : truthy cvn <;> cases hc : r.checksumUrl <;> simp [generateUpdate, h, hc]

theorem generateUpdate_downloadUrl_eq (fns : ExternalFns) (config : LookupUpdateConfig)
    (cval : Option String) (api : VersioningApi) (rs : RangeStrategy)
    (cvn : Option String) (b : String) (r : Release) :
    (generateUpdate fns config cval api rs cvn b r).downloadUrl = r.downloadUrl := by
  cases h : truthy cvn <;> cases hc : r.downloadUrl <;> simp [generateUpdate, h, hc]

theorem generateUpdate_newDigest_eq (fns : ExternalFns) (config : LookupUpdateConfig)
    (cval : Option String) (api : VersioningApi) (rs : RangeStrategy)
    (cvn : Option String) (b : String) (r : Release) :
    (generateUpdate fns config cval api rs cvn b r).newDigest = r.newDigest := by
  cases h : truthy cvn <;> cases hc : r.newDigest <;> simp [generateUpdate, h, hc]

theorem generateUpdate_registryUrl_eq (fns : ExternalFns) (config : LookupUpdateConfig)
    (cval : Option String) (api : VersioningApi) (rs : RangeStrategy)
    (cvn : Option String) (b : String) (r : Release) :
    (generateUpdate fns config cval api rs cvn b r).registryUrl = r.registryUrl := by
  cases h : truthy cvn <;> cases hc : r.registryUrl <;> simp [generateUpdate, h, hc]

/-- If `currentValue` is falsy, the `newValue` computation returns it
unchanged, for every versioning adapter. -/
theorem computeNewValue_falsy (api : VersioningApi) (cval : Option String)
    (rs : RangeStrategy) (cvn : Option String) (nv : String)
    (h : truthy cval = false) : computeNewValue api cval rs cvn nv = cval := by
  cases cval with
  | none => rfl
  | some s =>
    unfold computeNewValue
    simp only [truthy] at h
    simp [h]

/-- If `getNewValue` throws, the `newValue` computation falls back to the
current value. -/
theorem computeNewValue_error (api : VersioningApi) (cv : String)
    (rs : RangeStrategy) (cvn : Option String) (nv : String) (e : String)
    (herr : api.getNewValue { currentValue := cv, rangeStrategy := rs, currentVersion := cvn, newVersion := nv } = Except.error e) :
    computeNewValue api (some cv) rs cvn nv = some cv := by
  unfold computeNewValue
  cases hc : (cv != "") <;> simp [hc, herr]

/-! Concrete instances used by the witnesses below. -/

/-- Concrete classifier and enrichment functions for witnesses. -/
def fnsA : ExternalFns :=
  { getUpdateType := fun _ _ _ _ => UpdateType.minor,
    getMergeConfidenceLevel := fun _ _ _ _ _ => none,
    getElapsedDays := fun _ => 10 }

/-- Concrete lookup config for witnesses. -/
def cfgA : LookupUpdateConfig :=
  { datasource := "npm", packageName := "left-pad", packageRules := none }

/-- Concrete release for witnesses. -/
def relA : Release := { version := "1.3.0" }

/-- Concrete semver-like versioning adapter for witnesses. -/
def apiA : VersioningApi :=
  { getNewValue := fun a => Except.ok (some ("^" ++ a.newVersion)),
    getMajor := fun _ => some 1, getMinor := fun _ => some 3, getPatch := fun _ => some 0,
    isVersion := fun v => v == some "1.3.0",
    «matches» := fun _ _ => true,
    isBreaking := none }

/-- A versioning adapter whose `getNewValue` always throws. -/
def apiThrow : VersioningApi :=
  { apiA with getNewValue := fun _ => Except.error "getNewValue error" }

/-- C1: on every return path `generateUpdate` overwrites the initial `null`
sentinel of `newValue` (the result is always `some _`, never the outer
`none` sentinel), and the stored value is `currentValue` when
`currentVersion` is falsy (the early exit), and otherwise the result of the
rewrite block `computeNewValue`, which itself yields `currentValue` when
`currentValue` is falsy or the scheme rewrite throws and the rewritten
value of the versioning scheme otherwise. -/
theorem generateUpdate_newValue_never_sentinel (fns : ExternalFns)
    (config : LookupUpdateConfig) (cval : Option String) (api : VersioningApi)
    (rs : RangeStrategy) (cvn : Option String) (b : String) (r : Release) :
    (generateUpdate fns config cval api rs cvn b r).newValue =
      some (if truthy cvn then computeNewValue api cval rs cvn r.version else cval) :=
  generateUpdate_newValue_eq fns config cval api rs cvn b r

/-- C2: if `currentValue` is a truthy string and `getNewValue` throws on the
arguments `generateUpdate` passes it, the returned update still has
`newValue = currentValue`; the embedding is a total function, so no
exception reaches the caller and the update object is returned. -/
theorem generateUpdate_getNewValue_throw_recovered (fns : ExternalFns)
    (config : LookupUpdateConfig) (cv : String) (api : VersioningApi)
    (rs : RangeStrategy) (cvn : Option String) (b : String) (r : Release)
    (e : String) (hcv : (cv != "") = true)
    (herr : api.getNewValue { currentValue := cv, rangeStrategy := rs, currentVersion := cvn, newVersion := r.version } = Except.error e) :
    (generateUpdate fns config (some cv) api rs cvn b r).newValue = some (some cv) := by
  rw [generateUpdate_newValue_eq]
  unfold computeNewValue
  simp [hcv, herr]

/-- Witness for C2 at a concrete throwing adapter. -/
theorem generateUpdate_getNewValue_throw_recovered_witness :
    (generateUpdate fnsA cfgA (some "^1.2.0") apiThrow RangeStrategy.replace (some "1.2.0") "compatible" relA).newValue = some (some "^1.2.0") :=
  generateUpdate_getNewValue_throw_recovered fnsA cfgA "^1.2.0" apiThrow
    RangeStrategy.replace (some "1.2.0") "compatible" relA "getNewValue error"
    (by decide) rfl

/-- C3: when `currentVersion` is falsy (and no `updateType` is ever set on
the fresh update object before the guard, so the guard reduces to this),
`generateUpdate` returns early with `newValue = currentValue`, and without
classifying `updateType`, computing `isBreaking`, enriching confidence, or
setting `isRange`, `isLockfileUpdate` or `isBump`; the early exit is a
normal return of the total function, not an error. -/
theorem generateUpdate_missing_currentVersion_early_exit (fns : ExternalFns)
    (config : LookupUpdateConfig) (cval : Option String) (api : VersioningApi)
    (rs : RangeStrategy) (cvn : Option String) (b : String) (r : Release)
    (h : truthy cvn = false) :
    (generateUpdate fns config cval api rs cvn b r).newValue = some cval ∧
    (generateUpdate fns config cval api rs cvn b r).updateType = none ∧
    (generateUpdate fns config cval api rs cvn b r).isBreaking = none ∧
    (generateUpdate fns config cval api rs cvn b r).mergeConfidenceLevel = none ∧
    (generateUpdate fns config cval api rs cvn b r).isRange = none ∧
    (generateUpdate fns config cval api rs cvn b r).isLockfileUpdate = none ∧
    (generateUpdate fns config cval api rs cvn b r).isBump = none := by
  refine ⟨?_, ?_, ?_, ?_, ?_, ?_, ?_⟩ <;>
    simp [generateUpdate_newValue_eq, generateUpdate_updateType_eq,
      generateUpdate_isBreaking_eq, generateUpdate_mergeConfidenceLevel_eq,
      generateUpdate_isRange_eq, generateUpdate_isLockfileUpdate_eq,
      generateUpdate_isBump_eq, h]

/-- Witness for C3 at a concrete absent `currentVersion`. -/
theorem generateUpdate_missing_currentVersion_early_exit_witness :
    (generateUpdate fnsA cfgA (some "^1.2.0") apiA RangeStrategy.replace none "compatible" relA).newValue = some (some "^1.2.0") ∧
    (generateUpdate fnsA cfgA (some "^1.2.0") apiA RangeStrategy.replace none "compatible" relA).updateType = none ∧
    (generateUpdate fnsA cfgA (some "^1.2.0") apiA RangeStrategy.replace none "compatible" relA).isBreaking = none ∧
    (generateUpdate fnsA cfgA (some "^1.2.0") apiA RangeStrategy.replace none "compatible" relA).mergeConfidenceLevel = none ∧
    (generateUpdate fnsA cfgA (some "^1.2.0") apiA RangeStrategy.replace none "compatible" relA).isRange = none ∧
    (generateUpdate fnsA cfgA (some "^1.2.0") apiA RangeStrategy.replace none "compatible" relA).isLockfileUpdate = none ∧
    (generateUpdate fnsA cfgA (some "^1.2.0") apiA RangeStrategy.replace none "compatible" relA).isBump = none :=
  generateUpdate_missing_currentVersion_early_exit fnsA cfgA (some "^1.2.0") apiA
    RangeStrategy.replace none "compatible" relA rfl

/-- C4 counterexample: at a concrete non-early-exit invocation with
`rangeStrategy = bump` and a matching new version, the returned update has
`isBump = some true` but its `isLockfileUpdate` field is absent (`none`),
not assigned the value `false`, refuting the claim that it equals
`false`. -/
theorem generateUpdate_bump_isLockfileUpdate_absent_counterexample :
    (generateUpdate fnsA cfgA (some "^1.0.0") apiA RangeStrategy.bump (some "1.0.0") "compatible" relA).isBump = some true ∧
    (generateUpdate fnsA cfgA (some "^1.0.0") apiA RangeStrategy.bump (some "1.0.0") "compatible" relA).isLockfileUpdate ≠ some false ∧
    (generateUpdate fnsA cfgA (some "^1.0.0") apiA RangeStrategy.bump (some "1.0.0") "compatible" relA).isLockfileUpdate = none := by
  refine ⟨by decide, by decide, by decide⟩

/-- C4 (amended): for every non-early-exit invocation with
`rangeStrategy = bump` where the new version matches the current value, the
returned update has `isBump = some true` and its `isLockfileUpdate` field
is left absent (`none`, hence in particular not `true`); the source never
assigns `false` to it. -/
theorem generateUpdate_bump_sets_isBump_only (fns : ExternalFns)
    (config : LookupUpdateConfig) (cval : Option String) (api : VersioningApi)
    (rs : RangeStrategy) (cvn : Option String) (b : String) (r : Release)
    (h : truthy cvn = true) (hrs : rs = RangeStrategy.bump)
    (hm : api.«matches» r.version cval = true) :
    (generateUpdate fns config cval api rs cvn b r).isBump = some true ∧
    (generateUpdate fns config cval api rs cvn b r).isLockfileUpdate = none := by
  subst hrs
  constructor
  · simp [generateUpdate_isBump_eq, h, hm]
  · simp [generateUpdate_isLockfileUpdate_eq]

/-- Witness for the amended C4. -/
theorem generateUpdate_bump_sets_isBump_only_witness :
    (generateUpdate fnsA cfgA (some "^1.0.0") apiA RangeStrategy.bump (some "1.0.0") "compatible" relA).isBump = some true ∧
    (generateUpdate fnsA cfgA (some "^1.0.0") apiA RangeStrategy.bump (some "1.0.0") "compatible" relA).isLockfileUpdate = none :=
  generateUpdate_bump_sets_isBump_only fnsA cfgA (some "^1.0.0") apiA
    RangeStrategy.bump (some "1.0.0") "compatible" relA rfl rfl rfl

/-- C5: on every returned update, `isLockfileUpdate = some true` implies the
range strategy was `update-lockfile`, `isBump = some true` implies it was
`bump`, and since these are distinct values of the same enum the two flags
are never both `true`. -/
theorem generateUpdate_isLockfileUpdate_isBump_exclusive (fns : ExternalFns)
    (config : LookupUpdateConfig) (cval : Option String) (api : VersioningApi)
    (rs : RangeStrategy) (cvn : Option String) (b : String) (r : Release) :
    ((generateUpdate fns config cval api rs cvn b r).isLockfileUpdate = some true → rs = RangeStrategy.updateLockfile) ∧
    ((generateUpdate fns config cval api rs cvn b r).isBump = some true → rs = RangeStrategy.bump) ∧
    ¬((generateUpdate fns config cval api rs cvn b r).isLockfileUpdate = some true ∧
      (generateUpdate fns config cval api rs cvn b r).isBump = some true) := by
  have h1 : (generateUpdate fns config cval api rs cvn b r).isLockfileUpdate = some true → rs = RangeStrategy.updateLockfile := by
    intro hl
    rw [generateUpdate_isLockfileUpdate_eq] at hl
    split at hl
    · next hc => simp at hc; exact hc.2.1
    · exact absurd hl (by simp)
  have h2 : (generateUpdate fns config cval api rs cvn b r).isBump = some true → rs = RangeStrategy.bump := by
    intro hb
    rw [generateUpdate_isBump_eq] at hb
    split at hb
    · next hc => simp at hc; exact hc.2.1
    · exact absurd hb (by simp)
  refine ⟨h1, h2, ?_⟩
  rintro ⟨hl, hb⟩
  have hx : RangeStrategy.updateLockfile = RangeStrategy.bump := (h1 hl).symm.trans (h2 hb)
  exact RangeStrategy.noConfusion hx

/-- Witness for C5 at a concrete update-lockfile invocation producing
`isLockfileUpdate = some true`. -/
theorem generateUpdate_isLockfileUpdate_isBump_exclusive_witness :
    (generateUpdate fnsA cfgA none apiA RangeStrategy.updateLockfile (some "1.0.0") "compatible" relA).isLockfileUpdate = some true ∧
    ¬((generateUpdate fnsA cfgA none apiA RangeStrategy.updateLockfile (some "1.0.0") "compatible" relA).isLockfileUpdate = some true ∧
      (generateUpdate fnsA cfgA none apiA RangeStrategy.updateLockfile (some "1.0.0") "compatible" relA).isBump = some true) :=
  ⟨by decide,
    (generateUpdate_isLockfileUpdate_isBump_exclusive fnsA cfgA none apiA
      RangeStrategy.updateLockfile (some "1.0.0") "compatible" relA).2.2⟩

/-- C6: on every non-early-exit path, `isBreaking` is assigned (never
absent): the delegated value of the `isBreaking` capability when the scheme
has one, and otherwise the fallback `updateType == major`, where
`updateType` is the value classified by `getUpdateType`. -/
theorem generateUpdate_isBreaking_characterized (fns : ExternalFns)
    (config : LookupUpdateConfig) (cval : Option String) (api : VersioningApi)
    (rs : RangeStrategy) (cvn : Option String) (b : String) (r : Release)
    (h : truthy cvn = true) :
    (generateUpdate fns config cval api rs cvn b r).isBreaking =
      some (match api.isBreaking with | some f => f cvn r.version | none => fns.getUpdateType config api cvn r.version == UpdateType.major) := by
  rw [generateUpdate_isBreaking_eq]
  simp [h]

/-- Witness for C6 with a scheme without the `isBreaking` capability and a
non-major classification: the fallback yields `some false`. -/
theorem generateUpdate_isBreaking_characterized_witness :
    (generateUpdate fnsA cfgA (some "^1.2.0") apiA RangeStrategy.replace (some "1.2.0") "compatible" relA).isBreaking = some false :=
  (generateUpdate_isBreaking_characterized fnsA cfgA (some "^1.2.0") apiA
    RangeStrategy.replace (some "1.2.0") "compatible" relA rfl).trans (by decide)

/-- C7: when `currentValue` is falsy (absent or empty), the returned update
has `newValue = currentValue`; and no rewrite is attempted: the rewrite
block (`computeNewValue`, the only call site of `getNewValue` in
`generateUpdate`) returns `currentValue` for every substituted
`getNewValue`, i.e. its result never depends on the rewrite capability. -/
theorem generateUpdate_falsy_currentValue_no_rewrite (fns : ExternalFns)
    (config : LookupUpdateConfig) (cval : Option String) (api : VersioningApi)
    (rs : RangeStrategy) (cvn : Option String) (b : String) (r : Release)
    (h : truthy cval = false) :
    (generateUpdate fns config cval api rs cvn b r).newValue = some cval ∧
    ∀ g, computeNewValue { api with getNewValue := g } cval rs cvn r.version = cval := by
  constructor
  · rw [generateUpdate_newValue_eq, computeNewValue_falsy api cval rs cvn r.version h]
    simp
  · intro g
    exact computeNewValue_falsy { api with getNewValue := g } cval rs cvn r.version h

/-- Witness for C7 with `currentValue = none` and a throwing substituted
rewrite capability. -/
theorem generateUpdate_falsy_currentValue_no_rewrite_witness :
    (generateUpdate fnsA cfgA none apiA RangeStrategy.replace (some "1.2.0") "compatible" relA).newValue = some none ∧
    computeNewValue { apiA with getNewValue := fun _ => Except.error "boom" } none RangeStrategy.replace (some "1.2.0") "1.3.0" = none :=
  ⟨(generateUpdate_falsy_currentValue_no_rewrite fnsA cfgA none apiA
      RangeStrategy.replace (some "1.2.0") "compatible" relA rfl).1,
   (generateUpdate_falsy_currentValue_no_rewrite fnsA cfgA none apiA
      RangeStrategy.replace (some "1.2.0") "compatible" relA rfl).2
     (fun _ => Except.error "boom")⟩

/-- C8: for every non-early-exit invocation with
`rangeStrategy = update-lockfile` where `currentValue` equals the computed
`newValue`, the returned update has `isLockfileUpdate = some true`. -/
theorem generateUpdate_update_lockfile_flag (fns : ExternalFns)
    (config : LookupUpdateConfig) (cval : Option String) (api : VersioningApi)
    (rs : RangeStrategy) (cvn : Option String) (b : String) (r : Release)
    (h : truthy cvn = true) (hrs : rs = RangeStrategy.updateLockfile)
    (hv : cval = computeNewValue api cval rs cvn r.version) :
    (generateUpdate fns config cval api rs cvn b r).isLockfileUpdate = some true := by
  subst hrs
  rw [generateUpdate_isLockfileUpdate_eq]
  simp [h, ← hv]

/-- Witness for C8 with an unconstrained `currentValue` (both sides of the
comparison are `none`). -/
theorem generateUpdate_update_lockfile_flag_witness :
    (generateUpdate fnsA cfgA none apiA RangeStrategy.updateLockfile (some "1.0.0") "compatible" relA).isLockfileUpdate = some true :=
  generateUpdate_update_lockfile_flag fnsA cfgA none apiA
    RangeStrategy.updateLockfile (some "1.0.0") "compatible" relA rfl rfl rfl

/-- C9: each of `checksumUrl`, `downloadUrl`, `newDigest` and `registryUrl`
on the returned update equals the corresponding field of the input release:
present exactly when present on the release, and absent (never defaulted)
when absent on the release. -/
theorem generateUpdate_release_metadata_passthrough (fns : ExternalFns)
    (config : LookupUpdateConfig) (cval : Option String) (api : VersioningApi)
    (rs : RangeStrategy) (cvn : Option String) (b : String) (r : Release) :
    (generateUpdate fns config cval api rs cvn b r).checksumUrl = r.checksumUrl ∧
    (generateUpdate fns config cval api rs cvn b r).downloadUrl = r.downloadUrl ∧
    (generateUpdate fns config cval api rs cvn b r).newDigest = r.newDigest ∧
    (generateUpdate fns config cval api rs cvn b r).registryUrl = r.registryUrl :=
  ⟨generateUpdate_checksumUrl_eq fns config cval api rs cvn b r,
   generateUpdate_downloadUrl_eq fns config cval api rs cvn b r,
   generateUpdate_newDigest_eq fns config cval api rs cvn b r,
   generateUpdate_registryUrl_eq fns config cval api rs cvn b r⟩

/-- C10: on every return path, each of `isRange`, `isLockfileUpdate` and
`isBump` is either absent (`none`) or `some true`; the value `false` is
never assigned to any of them. -/
theorem generateUpdate_flags_never_false (fns : ExternalFns)
    (config : LookupUpdateConfig) (cval : Option String) (api : VersioningApi)
    (rs : RangeStrategy) (cvn : Option String) (b : String) (r : Release) :
    ((generateUpdate fns config cval api rs cvn b r).isRange = none ∨
      (generateUpdate fns config cval api rs cvn b r).isRange = some true) ∧
    ((generateUpdate fns config cval api rs cvn b r).isLockfileUpdate = none ∨
      (generateUpdate fns config cval api rs cvn b r).isLockfileUpdate = some true) ∧
    ((generateUpdate fns config cval api rs cvn b r).isBump = none ∨
      (generateUpdate fns config cval api rs cvn b r).isBump = some true) := by
  refine ⟨?_, ?_, ?_⟩
  · rw [generateUpdate_isRange_eq]; split
    · exact Or.inr rfl
    · exact Or.inl rfl
  · rw [generateUpdate_isLockfileUpdate_eq]; split
    · exact Or.inr rfl
    · exact Or.inl rfl
  · rw [generateUpdate_isBump_eq]; split
    · exact Or.inr rfl
    · exact Or.inl rfl
